import Mathlib

/-!
Verification development for the phemisystems/pywebhdfs fork, tornado client.

The embedding below translates src/pywebhdfs/tornado/webhdfs.py and the
relevant part of src/pywebhdfs/kerberos_utils.py into Lean. The HTTP
transport (tornado AsyncHTTPClient.fetch) is an external collaborator: each
fetch either returns a response normally or raises a tornado HTTPError that
carries the response (tornado signals non-2xx statuses, including the 307
redirect the client expects in phase 1, in this exceptional way). The
embedding therefore takes the outcome of each fetch as an input and records
the trace of ticket acquisitions and issued HTTP requests.
-/

namespace Pywebhdfs

/-- An HTTP response as the tornado transport delivers it: status code,
body, and the value of the location header when that header is present
(tornado response attributes are code, body, headers). -/
structure HttpResponse where
  code : Nat
  body : String
  location : Option String
deriving DecidableEq, Repr

/-- Outcome of one http_client.fetch call: either a response returned
normally, or a tornado HTTPError raised by the transport carrying the
response as e.response. -/
inductive FetchResult where
  | ok (r : HttpResponse)
  | raisedHTTPError (r : HttpResponse)
deriving DecidableEq, Repr

/-- Phase-1 fetch handling of create_file and append_file
(webhdfs.py lines 108-111 and 178-181): a normal return is used directly,
and a raised HTTPError is caught and its carried response used instead. -/
def unwrapFetch : FetchResult → HttpResponse
  | .ok r => r
  | .raisedHTTPError r => r

/-- Modelled from the spec: the pywebhdfs.errors module imported at
webhdfs.py line 8 is not among the sources. Section 7 of the spec lists the
raised kinds, each carrying the response body as its message; the generic
catch-all is the class named PyWebHdfsException at the call sites of
_raise_pywebhdfs_exception. -/
inductive HdfsError where
  | BadRequest (msg : String)
  | Unauthorized (msg : String)
  | FileNotFound (msg : String)
  | MethodNotAllowed (msg : String)
  | PyWebHdfsException (msg : String)
deriving DecidableEq, Repr

/-- The message carried by a raised error. -/
def HdfsError.msgOf : HdfsError → String
  | .BadRequest m => m
  | .Unauthorized m => m
  | .FileNotFound m => m
  | .MethodNotAllowed m => m
  | .PyWebHdfsException m => m

/-- A Python-level failure outcome of a client call. -/
inductive PyError where
  | hdfs (e : HdfsError)
  | uncaughtHTTPError (r : HttpResponse)
  | typeError
  | attributeError (attr : String)
  | keyError (key : String)
  | ticketAcquisitionError (msg : String)
deriving DecidableEq, Repr

/-- A Python-level success value of a client call: True for mutations, the
raw body for read_file, and the json.loads decoding of the body (kept
opaque here) for the status, list and acl operations. -/
inductive PyRet where
  | pybool (b : Bool)
  | pybytes (s : String)
  | pyjson (s : String)
deriving DecidableEq, Repr

/-- A Python value passed as an optional keyword argument. -/
inductive PyVal where
  | pstr (s : String)
  | pbool (b : Bool)
  | pint (n : Int)
deriving DecidableEq, Repr

/-- Python str() of a keyword-argument value. -/
def PyVal.str : PyVal → String
  | .pstr s => s
  | .pbool b => if b then "True" else "False"
  | .pint n => toString n

/-- Python 2 str.lower(), which lower-cases the ASCII letters: applied
character-wise over the underlying data so that it evaluates. -/
def pyLower (s : String) : String := ⟨s.data.map Char.toLower⟩

/-- Observable event of a client call: a Kerberos ticket acquisition, or an
HTTP request issued with the given method, URI, headers and body. -/
inductive Event where
  | acquireTicket (token : String)
  | httpRequest (method : String) (uri : String)
      (headers : List (String × String)) (body : Option String)
deriving DecidableEq, Repr

/-- Whether an event is an issued HTTP request. -/
def Event.isRequest : Event → Bool
  | .httpRequest _ _ _ _ => true
  | _ => false

/-- Whether a request event carries an Authorization header. -/
def Event.hasAuth : Event → Bool
  | .httpRequest _ _ hdrs _ => hdrs.any (fun kv => kv.1 == "Authorization")
  | _ => false

/-- Number of HTTP requests in a trace. -/
def httpCount (tr : List Event) : Nat := (tr.filter Event.isRequest).length

/-- Whether every HTTP request in a trace carries an Authorization header. -/
def allRequestsAuthed (tr : List Event) : Bool :=
  tr.all (fun e => !Event.isRequest e || Event.hasAuth e)

/-- The configured krb_instance, abstracted to what the client can observe:
how many positional arguments its acquire_kerberos_ticket method accepts
besides self, and the outcome of its k-th acquisition during one call
(a header string, or the message of a raised exception). -/
structure KrbInstance where
  acquireArity : Nat
  acquire : Nat → Except String String

/-- The client state set up in PyWebHdfsClient init: the formatted base
URI, the optional user.name, and the optional krb_instance. -/
structure ClientCfg where
  base_uri : String
  user_name : Option String
  krb_instance : Option KrbInstance

/-- Transport behaviour for one two-phase call: what the two fetches
produce. -/
structure Env where
  phase1 : FetchResult
  phase2 : FetchResult
deriving DecidableEq, Repr

/-- The number of positional arguments the tornado client passes to
acquire_kerberos_ticket at every call site (webhdfs.py line 100 and its
copies): self.krb_primary and self.host. -/
def acquireCallArgCount : Nat := 2

/-- The Kerberos prologue shared by every operation (webhdfs.py lines
98-100 and their copies): when a krb_instance is configured, call
krb_instance.acquire_kerberos_ticket(self.krb_primary, self.host) and
store the result under the Authorization header key. In Python, calling a
method with a number of positional arguments different from what its
signature accepts raises TypeError before the method body runs; an
exception raised by the acquisition itself also propagates. -/
def acquireAuth (krb : Option KrbInstance) (k : Nat) :
    Except PyError (Option String) :=
  match krb with
  | none => .ok none
  | some inst =>
    if inst.acquireArity = acquireCallArgCount then
      match inst.acquire k with
      | .ok tok => .ok (some tok)
      | .error m => .error (.ticketAcquisitionError m)
    else .error .typeError

/-- Trace events of the Kerberos prologue: one acquisition event when a
ticket was acquired, none otherwise. -/
def acquireEvents : Option String → List Event
  | none => []
  | some t => [Event.acquireTicket t]

/-- The headers dict contents after the Kerberos prologue. -/
def authHeaders : Option String → List (String × String)
  | none => []
  | some t => [("Authorization", t)]

/-- Modelled from the spec: the pywebhdfs.operations module imported at
webhdfs.py line 8 is not among the sources. Section 3 of the spec lists
the operation tags, mapped 1:1 to the WebHDFS op query parameter. -/
def op_CREATE : String := "CREATE"

/-- Modelled from the spec: operation tag for append_file. -/
def op_APPEND : String := "APPEND"

/-- Modelled from the spec: operation tag for read_file. -/
def op_OPEN : String := "OPEN"

/-- Modelled from the spec: operation tag for make_dir. -/
def op_MKDIRS : String := "MKDIRS"

/-- Modelled from the spec: operation tag for rename_file_dir. -/
def op_RENAME : String := "RENAME"

/-- Modelled from the spec: operation tag for delete_file_dir. -/
def op_DELETE : String := "DELETE"

/-- Modelled from the spec: operation tag for get_file_dir_status. -/
def op_GETFILESTATUS : String := "GETFILESTATUS"

/-- Modelled from the spec: operation tag for list_dir. -/
def op_LISTSTATUS : String := "LISTSTATUS"

/-- Modelled from the spec: operation tag for set_owner. -/
def op_SETOWNER : String := "SETOWNER"

/-- Modelled from the spec: operation tag for get_acl_status. -/
def op_GETACLSTATUS : String := "GETACLSTATUS"

/-- Embeds PyWebHdfsClient._create_uri (webhdfs.py lines 536-565): the
path unchanged, then the op parameter, then each keyword argument as
an ampersand separated key=value pair with the value passed through
str().lower(), then user.name when configured, all appended to the base
URI with no escaping of any kind. -/
def create_uri (base_uri : String) (user_name : Option String)
    (path : String) (operation : String)
    (kwargs : List (String × PyVal)) : String :=
  let path_param := path
  let operation_param := "?op=" ++ operation
  let auth_param :=
    match user_name with
    | none => ""
    | some u => "&user.name=" ++ u
  let keyword_params :=
    kwargs.foldl
      (fun params kv => params ++ "&" ++ kv.1 ++ "=" ++ pyLower (PyVal.str kv.2))
      ""
  base_uri ++ path_param ++ operation_param ++ keyword_params ++ auth_param

/-- Embeds _raise_pywebhdfs_exception (webhdfs.py lines 568-579); the
httplib constants are BAD_REQUEST = 400, UNAUTHORIZED = 401,
NOT_FOUND = 404, METHOD_NOT_ALLOWED = 405. -/
def raise_pywebhdfs_exception (resp_code : Nat) (message : String) : HdfsError :=
  if resp_code = 400 then .BadRequest message
  else if resp_code = 401 then .Unauthorized message
  else if resp_code = 404 then .FileNotFound message
  else if resp_code = 405 then .MethodNotAllowed message
  else .PyWebHdfsException message

/-- Embeds PyWebHdfsClient.create_file (webhdfs.py lines 59-132). Phase 1:
Kerberos prologue, PUT with empty body and redirects not followed, the
fetch wrapped in a try that catches HTTPError and uses e.response. A
phase-1 status other than 307 is classified and raised. Otherwise the
location header is read (a missing key raises KeyError from the headers
dict), Content-Type is added, a fresh ticket is acquired, and the PUT with
the file data is issued; the phase-2 fetch has no surrounding try, so a
raised HTTPError propagates. A phase-2 status other than 201 is classified
and raised; 201 returns True. -/
def create_file (cfg : ClientCfg) (env : Env) (path : String)
    (file_data : String) (kwargs : List (String × PyVal)) :
    Except PyError PyRet × List Event :=
  match acquireAuth cfg.krb_instance 0 with
  | .error e => (.error e, [])
  | .ok auth1 =>
    let uri := create_uri cfg.base_uri cfg.user_name path op_CREATE kwargs
    let tr1 := acquireEvents auth1 ++
      [Event.httpRequest "PUT" uri (authHeaders auth1) (some "")]
    let init_response := unwrapFetch env.phase1
    if init_response.code = 307 then
      match init_response.location with
      | none => (.error (.keyError "location"), tr1)
      | some loc =>
        match acquireAuth cfg.krb_instance 1 with
        | .error e => (.error e, tr1)
        | .ok auth2 =>
          let hdrs2 := authHeaders auth2 ++
            [("Content-Type", "application/octet-stream")]
          let tr2 := tr1 ++ acquireEvents auth2 ++
            [Event.httpRequest "PUT" loc hdrs2 (some file_data)]
          match env.phase2 with
          | .raisedHTTPError r => (.error (.uncaughtHTTPError r), tr2)
          | .ok r =>
            if r.code = 201 then (.ok (.pybool true), tr2)
            else (.error (.hdfs (raise_pywebhdfs_exception r.code r.body)), tr2)
    else
      (.error
        (.hdfs (raise_pywebhdfs_exception init_response.code init_response.body)),
       tr1)

/-- Embeds PyWebHdfsClient.append_file (webhdfs.py lines 134-202): same
two-phase structure as create_file with POST instead of PUT, the APPEND
operation, and 200 instead of 201 as the accepted phase-2 status. -/
def append_file (cfg : ClientCfg) (env : Env) (path : String)
    (file_data : String) (kwargs : List (String × PyVal)) :
    Except PyError PyRet × List Event :=
  match acquireAuth cfg.krb_instance 0 with
  | .error e => (.error e, [])
  | .ok auth1 =>
    let uri := create_uri cfg.base_uri cfg.user_name path op_APPEND kwargs
    let tr1 := acquireEvents auth1 ++
      [Event.httpRequest "POST" uri (authHeaders auth1) (some "")]
    let init_response := unwrapFetch env.phase1
    if init_response.code = 307 then
      match init_response.location with
      | none => (.error (.keyError "location"), tr1)
      | some loc =>
        match acquireAuth cfg.krb_instance 1 with
        | .error e => (.error e, tr1)
        | .ok auth2 =>
          let hdrs2 := authHeaders auth2 ++
            [("Content-Type", "application/octet-stream")]
          let tr2 := tr1 ++ acquireEvents auth2 ++
            [Event.httpRequest "POST" loc hdrs2 (some file_data)]
          match env.phase2 with
          | .raisedHTTPError r => (.error (.uncaughtHTTPError r), tr2)
          | .ok r =>
            if r.code = 200 then (.ok (.pybool true), tr2)
            else (.error (.hdfs (raise_pywebhdfs_exception r.code r.body)), tr2)
    else
      (.error
        (.hdfs (raise_pywebhdfs_exception init_response.code init_response.body)),
       tr1)

/-- Shared shape of the single-request operations read_file, make_dir,
rename_file_dir, delete_file_dir, get_file_dir_status, list_dir and
get_acl_status (webhdfs.py lines 204-489 and 520-534): Kerberos prologue,
URI built by _create_uri, one fetch with no surrounding try (so a raised
HTTPError propagates), classification of any returned status other than
200, and a wrapped result on 200. -/
def simpleOp (cfg : ClientCfg) (fr : FetchResult) (method : String)
    (operation : String) (path : String) (reqBody : Option String)
    (kwargs : List (String × PyVal)) (onOk : HttpResponse → PyRet) :
    Except PyError PyRet × List Event :=
  match acquireAuth cfg.krb_instance 0 with
  | .error e => (.error e, [])
  | .ok auth =>
    let uri := create_uri cfg.base_uri cfg.user_name path operation kwargs
    let tr := acquireEvents auth ++
      [Event.httpRequest method uri (authHeaders auth) reqBody]
    match fr with
    | .raisedHTTPError r => (.error (.uncaughtHTTPError r), tr)
    | .ok r =>
      if r.code = 200 then (.ok (onOk r), tr)
      else (.error (.hdfs (raise_pywebhdfs_exception r.code r.body)), tr)

/-- Embeds PyWebHdfsClient.read_file (webhdfs.py lines 204-242): GET with
the OPEN operation, returning the raw response body. -/
def read_file (cfg : ClientCfg) (fr : FetchResult) (path : String)
    (kwargs : List (String × PyVal)) : Except PyError PyRet × List Event :=
  simpleOp cfg fr "GET" op_OPEN path none kwargs (fun r => .pybytes r.body)

/-- Embeds PyWebHdfsClient.make_dir (webhdfs.py lines 244-282): PUT with
empty body and the MKDIRS operation, returning True. -/
def make_dir (cfg : ClientCfg) (fr : FetchResult) (path : String)
    (kwargs : List (String × PyVal)) : Except PyError PyRet × List Event :=
  simpleOp cfg fr "PUT" op_MKDIRS path (some "") kwargs (fun _ => .pybool true)

/-- Embeds PyWebHdfsClient.rename_file_dir (webhdfs.py lines 284-320): PUT
with empty body and the RENAME operation, the destination passed as a
keyword parameter, returning True. -/
def rename_file_dir (cfg : ClientCfg) (fr : FetchResult) (path : String)
    (destination_path : String) (kwargs : List (String × PyVal)) :
    Except PyError PyRet × List Event :=
  simpleOp cfg fr "PUT" op_RENAME path (some "")
    (("destination", PyVal.pstr destination_path) :: kwargs) (fun _ => .pybool true)

/-- Embeds PyWebHdfsClient.delete_file_dir (webhdfs.py lines 323-360):
DELETE with the DELETE operation and the recursive flag passed as a
keyword parameter, returning True. -/
def delete_file_dir (cfg : ClientCfg) (fr : FetchResult) (path : String)
    (recursive : Bool) (kwargs : List (String × PyVal)) :
    Except PyError PyRet × List Event :=
  simpleOp cfg fr "DELETE" op_DELETE path none
    (("recursive", PyVal.pbool recursive) :: kwargs) (fun _ => .pybool true)

/-- Embeds PyWebHdfsClient.get_file_dir_status (webhdfs.py lines 362-426):
GET with the GETFILESTATUS operation, returning json.loads of the body. -/
def get_file_dir_status (cfg : ClientCfg) (fr : FetchResult) (path : String)
    (kwargs : List (String × PyVal)) : Except PyError PyRet × List Event :=
  simpleOp cfg fr "GET" op_GETFILESTATUS path none kwargs (fun r => .pyjson r.body)

/-- Embeds PyWebHdfsClient.list_dir (webhdfs.py lines 428-489): GET with
the LISTSTATUS operation, returning json.loads of the body. -/
def list_dir (cfg : ClientCfg) (fr : FetchResult) (path : String)
    (kwargs : List (String × PyVal)) : Except PyError PyRet × List Event :=
  simpleOp cfg fr "GET" op_LISTSTATUS path none kwargs (fun r => .pyjson r.body)

/-- Embeds PyWebHdfsClient.get_acl_status (webhdfs.py lines 520-534): GET
with the GETACLSTATUS operation, returning json.loads of the body. -/
def get_acl_status (cfg : ClientCfg) (fr : FetchResult) (path : String)
    (kwargs : List (String × PyVal)) : Except PyError PyRet × List Event :=
  simpleOp cfg fr "GET" op_GETACLSTATUS path none kwargs (fun r => .pyjson r.body)

/-- Embeds PyWebHdfsClient.set_owner (webhdfs.py lines 491-518): Kerberos
prologue, owner and group added to the keyword parameters, PUT with no
body. When the fetch returns a response, line 515 reads
response.status_code, but a tornado response object only exposes code,
body and headers (every sibling method reads response.code and
response.body), so Python raises AttributeError for every returned
response and the function can never reach its raise Return(True). -/
def set_owner (cfg : ClientCfg) (fr : FetchResult) (path : String)
    (owner : String) (group : String) (kwargs : List (String × PyVal)) :
    Except PyError PyRet × List Event :=
  match acquireAuth cfg.krb_instance 0 with
  | .error e => (.error e, [])
  | .ok auth =>
    let args := kwargs ++ [("owner", PyVal.pstr owner), ("group", PyVal.pstr group)]
    let uri := create_uri cfg.base_uri cfg.user_name path op_SETOWNER args
    let tr := acquireEvents auth ++
      [Event.httpRequest "PUT" uri (authHeaders auth) none]
    match fr with
    | .raisedHTTPError r => (.error (.uncaughtHTTPError r), tr)
    | .ok _ => (.error (.attributeError "status_code"), tr)

/-- Embeds KerberosContextManager.acquire_kerberos_ticket
(kerberos_utils.py lines 168-186), with the outcome of the ccache refresh
and of the GSS exchange taken as inputs. The method first calls
self.refresh_kerberos_ccache(), whose returned success flag and message
are discarded, then runs the GSS client steps and returns the Negotiate
header; nothing in the method inspects or reacts to the refresh report. -/
def KCM_acquire_kerberos_ticket (_refreshReport : Bool × String)
    (gssTicket : String) : String :=
  "Negotiate " ++ gssTicket

/-- The bundled KerberosContextManager as a krb_instance: its
acquire_kerberos_ticket signature (kerberos_utils.py line 168) accepts no
positional arguments besides self, and its k-th acquisition runs the
method body on the k-th refresh report and GSS result. -/
def bundledKCM (refreshReports : Nat → Bool × String)
    (gss : Nat → String) : KrbInstance :=
  { acquireArity := 0
    acquire := fun k => .ok (KCM_acquire_kerberos_ticket (refreshReports k) (gss k)) }

/-- The token of a succeeded acquisition, used to state trace shapes. -/
def okToken : Except String String → String
  | .ok t => t
  | .error _ => ""

/-- The trace events of the k-th Kerberos prologue of a call: one
acquisition carrying its token when an instance is configured, none
otherwise. -/
def prologueEvents (krb : Option KrbInstance) (k : Nat) : List Event :=
  match krb with
  | none => []
  | some inst => [Event.acquireTicket (okToken (inst.acquire k))]

/-- The headers the k-th Kerberos prologue of a call leaves in the headers
dict: the Authorization entry with the k-th token when an instance is
configured, nothing otherwise. -/
def prologueHeaders (krb : Option KrbInstance) (k : Nat) : List (String × String) :=
  match krb with
  | none => []
  | some inst => [("Authorization", okToken (inst.acquire k))]

/-- When an instance is configured, its k-th acquisition succeeded with
its token; with no instance configured there is nothing to acquire. -/
def acquiresOK (krb : Option KrbInstance) (k : Nat) : Prop :=
  match krb with
  | none => True
  | some inst => inst.acquire k = Except.ok (okToken (inst.acquire k))

/-- Modelled from the spec: the section 7 error taxonomy, including the
ProtocolViolation kind the spec reserves for a phase-1 of create or
append that did not return a redirect. -/
inductive SpecErrorKind where
  | badRequest
  | unauthorized
  | fileNotFound
  | methodNotAllowed
  | genericProtocolError
  | protocolViolation
  | ticketAcquisitionFailure
  | transportFailure
deriving DecidableEq, Repr

/-- Modelled from the spec: the taxonomy kind of each error class the
client raises through _raise_pywebhdfs_exception; no class of the code
corresponds to ProtocolViolation. -/
def specHdfsKind : HdfsError → SpecErrorKind
  | .BadRequest _ => .badRequest
  | .Unauthorized _ => .unauthorized
  | .FileNotFound _ => .fileNotFound
  | .MethodNotAllowed _ => .methodNotAllowed
  | .PyWebHdfsException _ => .genericProtocolError

/-- Modelled from the spec: URIBuilder.build keyword-parameter serialization
as section 4.1 words it — each entry of params in order as an ampersand
separated key=value pair, value lower-cased via string conversion. -/
def paramsConcat : List (String × PyVal) → String
  | [] => ""
  | kv :: rest => "&" ++ kv.1 ++ "=" ++ pyLower (PyVal.str kv.2) ++ paramsConcat rest

/-- Modelled from the spec: URIBuilder.build as section 4.1 words it — the
concatenation of the base URI, the path with no leading slash added, the
op parameter exactly once, every supplied parameter exactly once in order
lower-cased, then user.name when present, with no percent-encoding or
other escaping anywhere. -/
def build_spec (base_uri : String) (path : String) (operation : String)
    (user_name : Option String) (params : List (String × PyVal)) : String :=
  base_uri ++ path ++ ("?op=" ++ operation) ++ paramsConcat params ++
    (match user_name with
     | none => ""
     | some u => "&user.name=" ++ u)

/-- A client with no Kerberos instance, for concrete runs. -/
def cfgNoKrb : ClientCfg :=
  { base_uri := "http://localhost:50070/webhdfs/v1/"
    user_name := some "hdfs"
    krb_instance := none }

/-- A call-compatible Kerberos instance whose k-th acquisition yields a
distinct token. -/
def instW : KrbInstance :=
  { acquireArity := 2
    acquire := fun k => .ok ("TOK" ++ Nat.repr k) }

/-- A Kerberos-enabled client for concrete runs. -/
def cfgW : ClientCfg :=
  { base_uri := "http://nn:50070/webhdfs/v1/"
    user_name := some "hdfs"
    krb_instance := some instW }

/-- A Kerberos instance whose first acquisition raises. -/
def instFail : KrbInstance :=
  { acquireArity := 2
    acquire := fun _ => .error "no TGT available" }

/-- A Kerberos-enabled client whose ticket acquisitions fail. -/
def cfgFail : ClientCfg :=
  { base_uri := "http://nn:50070/webhdfs/v1/"
    user_name := none
    krb_instance := some instFail }

/-- A call-compatible instance whose acquisitions run the bundled manager
body with the ccache refresh failing every time: the failure report is
discarded by the method, so each acquisition still returns a header. -/
def kcmRefreshFailing : KrbInstance :=
  { acquireArity := 2
    acquire := fun _ =>
      .ok (KCM_acquire_kerberos_ticket (false, "kinit: cannot contact KDC") "TOK") }

/-- A Kerberos-enabled client built on kcmRefreshFailing. -/
def cfgRefreshFailing : ClientCfg :=
  { base_uri := "http://nn:50070/webhdfs/v1/"
    user_name := none
    krb_instance := some kcmRefreshFailing }

/-- Transport giving a phase-1 status of 404. -/
def env404 : Env :=
  ⟨FetchResult.ok ⟨404, "nf", none⟩, FetchResult.ok ⟨201, "", none⟩⟩

/-- Transport giving the expected redirect, then a 201. -/
def envCreateOK : Env :=
  ⟨FetchResult.ok ⟨307, "", some "http://dn:50075/webhdfs/v1/p?op=CREATE"⟩,
   FetchResult.ok ⟨201, "", none⟩⟩

/-- Transport giving the redirect wrapped in a raised HTTPError, then a
200, as a datanode answers a phase-2 append. -/
def envAppendOK : Env :=
  ⟨FetchResult.raisedHTTPError ⟨307, "", some "http://dn:50075/webhdfs/v1/p?op=APPEND"⟩,
   FetchResult.ok ⟨200, "", none⟩⟩

/-- Transport giving the redirect, then a phase-2 400 returned normally. -/
def envPhase2Bad : Env :=
  ⟨FetchResult.ok ⟨307, "", some "http://dn:50075/x"⟩,
   FetchResult.ok ⟨400, "bad", none⟩⟩

/-- Transport giving the redirect, then a phase-2 200 returned normally:
not the 201 create_file accepts, yet a status the classifier must
handle (it maps to the generic catch-all). -/
def envCreate200 : Env :=
  ⟨FetchResult.ok ⟨307, "", some "http://dn:50075/x"⟩,
   FetchResult.ok ⟨200, "wrong", none⟩⟩

/-- Transport giving the redirect, then a phase-2 201 returned normally:
not the 200 append_file accepts, yet a status the classifier must
handle (it maps to the generic catch-all). -/
def envAppend201 : Env :=
  ⟨FetchResult.ok ⟨307, "", some "http://dn:50075/x"⟩,
   FetchResult.ok ⟨201, "wrong", none⟩⟩

/-- A Kerberos instance whose first acquisition succeeds and whose second
acquisition raises. -/
def instSecondFail : KrbInstance :=
  { acquireArity := 2
    acquire := fun k => if k = 0 then .ok "T0" else .error "replay suspected" }

/-- A Kerberos-enabled client whose second per-call acquisition fails. -/
def cfgSecondFail : ClientCfg :=
  { base_uri := "http://nn:50070/webhdfs/v1/"
    user_name := none
    krb_instance := some instSecondFail }

/-- Transport giving the redirect, then a phase-2 404 raised by the
transport as an HTTPError. -/
def envPhase2Raised : Env :=
  ⟨FetchResult.ok ⟨307, "", some "http://dn:50075/x"⟩,
   FetchResult.raisedHTTPError ⟨404, "nf", none⟩⟩

/-
Helper lemmas shared by the claim theorems.
-/

/-- A succeeded Kerberos prologue on a configured instance yields the token
of the corresponding acquisition. -/
theorem acquireAuth_ok_some (inst : KrbInstance) (k : Nat) (a : Option String)
    (h : acquireAuth (some inst) k = Except.ok a) :
    a = some (okToken (inst.acquire k)) ∧
    inst.acquire k = Except.ok (okToken (inst.acquire k)) := by
  simp only [acquireAuth] at h
  by_cases ha : inst.acquireArity = acquireCallArgCount
  · rw [if_pos ha] at h
    cases hq : inst.acquire k with
    | ok t =>
      simp only [hq] at h
      injection h with h1
      exact ⟨h1.symm, rfl⟩
    | error m => simp [hq] at h
  · rw [if_neg ha] at h
    simp at h

/-- A succeeded Kerberos prologue, on any configuration, produces the
prologue trace events and headers of its acquisition index, and that
acquisition succeeded when an instance is configured. -/
theorem acquireAuth_ok_prologue (krb : Option KrbInstance) (k : Nat)
    (a : Option String) (h : acquireAuth krb k = Except.ok a) :
    acquireEvents a = prologueEvents krb k ∧
    authHeaders a = prologueHeaders krb k ∧
    acquiresOK krb k := by
  cases krb with
  | none =>
    simp only [acquireAuth] at h
    injection h with h1
    rw [← h1]
    exact ⟨rfl, rfl, trivial⟩
  | some inst =>
    obtain ⟨ha, hq⟩ := acquireAuth_ok_some inst k a h
    subst ha
    exact ⟨rfl, rfl, hq⟩

/-- Folding the keyword-parameter serialization from any accumulator. -/
theorem foldl_paramsConcat (l : List (String × PyVal)) (s : String) :
    l.foldl
      (fun params kv => params ++ "&" ++ kv.1 ++ "=" ++ pyLower (PyVal.str kv.2)) s
      = s ++ paramsConcat l := by
  induction l generalizing s with
  | nil => simp [paramsConcat]
  | cons kv rest ih =>
    simp only [List.foldl_cons, paramsConcat]
    rw [ih]
    simp [String.append_assoc]

/-- C5: the response classifier maps each status to exactly one error kind:
400 raises BadRequest, 401 Unauthorized, 404 FileNotFound, 405
MethodNotAllowed, and every other status the generic catch-all
PyWebHdfsException; every raised error carries the response body as its
message. -/
theorem status_classifier_total_mapping (code : Nat) (body : String) :
    raise_pywebhdfs_exception 400 body = HdfsError.BadRequest body ∧
    raise_pywebhdfs_exception 401 body = HdfsError.Unauthorized body ∧
    raise_pywebhdfs_exception 404 body = HdfsError.FileNotFound body ∧
    raise_pywebhdfs_exception 405 body = HdfsError.MethodNotAllowed body ∧
    (code ≠ 400 → code ≠ 401 → code ≠ 404 → code ≠ 405 →
      raise_pywebhdfs_exception code body = HdfsError.PyWebHdfsException body) ∧
    (raise_pywebhdfs_exception code body).msgOf = body := by
  refine ⟨rfl, rfl, rfl, rfl, ?_, ?_⟩
  · intro h1 h2 h3 h4
    simp [raise_pywebhdfs_exception, h1, h2, h3, h4]
  · unfold raise_pywebhdfs_exception
    split_ifs <;> rfl

/-- C5 witness: a 500 status classifies as the generic catch-all and
carries the body. -/
theorem status_classifier_total_mapping_w :
    raise_pywebhdfs_exception 500 "oops" = HdfsError.PyWebHdfsException "oops" ∧
    (raise_pywebhdfs_exception 500 "oops").msgOf = "oops" :=
  ⟨(status_classifier_total_mapping 500 "oops").2.2.2.2.1
      (by decide) (by decide) (by decide) (by decide),
   (status_classifier_total_mapping 500 "oops").2.2.2.2.2⟩

/-- C8: for every base URI, path, operation and parameter list, the URI
the client constructs is exactly the concatenation the spec describes:
base URI, the path unchanged, the op parameter once, each supplied
parameter once in order lower-cased after string conversion, then
user.name when configured, with no percent-encoding or other escaping. -/
theorem create_uri_matches_spec_build (base_uri path operation : String)
    (user_name : Option String) (kwargs : List (String × PyVal)) :
    create_uri base_uri user_name path operation kwargs =
      build_spec base_uri path operation user_name kwargs := by
  unfold create_uri build_spec
  rw [foldl_paramsConcat]
  cases user_name <;> simp [String.append_assoc]

/-- C6: for create_file and append_file, a phase-1 transport exception that
carries an HTTP response is unwrapped and the whole call, result and trace
alike, behaves identically to the call whose phase-1 response with the
same status and body was returned normally. -/
theorem phase1_exception_response_equiv (cfg : ClientCfg) (r : HttpResponse)
    (ph2 : FetchResult) (path file_data : String)
    (kwargs : List (String × PyVal)) :
    create_file cfg ⟨FetchResult.ok r, ph2⟩ path file_data kwargs =
      create_file cfg ⟨FetchResult.raisedHTTPError r, ph2⟩ path file_data kwargs ∧
    append_file cfg ⟨FetchResult.ok r, ph2⟩ path file_data kwargs =
      append_file cfg ⟨FetchResult.raisedHTTPError r, ph2⟩ path file_data kwargs :=
  ⟨rfl, rfl⟩

/-- C4: the tornado client passes two positional arguments to
acquire_kerberos_ticket while the bundled KerberosContextManager method
accepts none besides self, so with the bundled manager configured every
operation of the client fails with a TypeError from the arity mismatch
and issues no HTTP request and no acquisition. -/
theorem bundled_kcm_arity_typeerror_all_ops
    (refreshReports : Nat → Bool × String) (gss : Nat → String)
    (base : String) (user : Option String) (env : Env) (fr : FetchResult)
    (p d dest o g : String) (rcsv : Bool) (kwargs : List (String × PyVal)) :
    acquireCallArgCount = 2 ∧
    (bundledKCM refreshReports gss).acquireArity = 0 ∧
    create_file ⟨base, user, some (bundledKCM refreshReports gss)⟩ env p d kwargs
      = (Except.error PyError.typeError, []) ∧
    append_file ⟨base, user, some (bundledKCM refreshReports gss)⟩ env p d kwargs
      = (Except.error PyError.typeError, []) ∧
    read_file ⟨base, user, some (bundledKCM refreshReports gss)⟩ fr p kwargs
      = (Except.error PyError.typeError, []) ∧
    make_dir ⟨base, user, some (bundledKCM refreshReports gss)⟩ fr p kwargs
      = (Except.error PyError.typeError, []) ∧
    rename_file_dir ⟨base, user, some (bundledKCM refreshReports gss)⟩ fr p dest kwargs
      = (Except.error PyError.typeError, []) ∧
    delete_file_dir ⟨base, user, some (bundledKCM refreshReports gss)⟩ fr p rcsv kwargs
      = (Except.error PyError.typeError, []) ∧
    get_file_dir_status ⟨base, user, some (bundledKCM refreshReports gss)⟩ fr p kwargs
      = (Except.error PyError.typeError, []) ∧
    list_dir ⟨base, user, some (bundledKCM refreshReports gss)⟩ fr p kwargs
      = (Except.error PyError.typeError, []) ∧
    set_owner ⟨base, user, some (bundledKCM refreshReports gss)⟩ fr p o g kwargs
      = (Except.error PyError.typeError, []) ∧
    get_acl_status ⟨base, user, some (bundledKCM refreshReports gss)⟩ fr p kwargs
      = (Except.error PyError.typeError, []) :=
  ⟨rfl, rfl, rfl, rfl, rfl, rfl, rfl, rfl, rfl, rfl, rfl, rfl⟩

/-- C9: set_owner cannot return True on a 200 response: the code reads
response.status_code and response.content, attributes a tornado response
object does not have, so the call raises AttributeError after issuing its
single request. The concrete run below evaluates the embedded set_owner
at a 200 response. -/
theorem set_owner_status_code_attribute_error :
    set_owner cfgNoKrb (FetchResult.ok ⟨200, "", none⟩) "user/hdfs/f" "alice" "users" [] =
      (Except.error (PyError.attributeError "status_code"),
       [Event.httpRequest "PUT"
          "http://localhost:50070/webhdfs/v1/user/hdfs/f?op=SETOWNER&owner=alice&group=users&user.name=hdfs"
          [] none]) := by
  rfl

/-- C2 counterexample: a phase-1 status of 404 on create_file raises the
status-classified FileNotFound error; its taxonomy kind is FileNotFound,
not ProtocolViolation, and no error class the client raises has the
ProtocolViolation kind. -/
theorem phase1_404_not_protocol_violation_cx :
    (create_file cfgNoKrb env404 "p" "d" []).1 =
      Except.error (PyError.hdfs (HdfsError.FileNotFound "nf")) ∧
    httpCount (create_file cfgNoKrb env404 "p" "d" []).2 = 1 ∧
    ¬ ∃ m : HdfsError,
        (create_file cfgNoKrb env404 "p" "d" []).1 = Except.error (PyError.hdfs m) ∧
        specHdfsKind m = SpecErrorKind.protocolViolation := by
  refine ⟨rfl, rfl, ?_⟩
  rintro ⟨m, hm, hk⟩
  have h0 : (create_file cfgNoKrb env404 "p" "d" []).1 =
      Except.error (PyError.hdfs (HdfsError.FileNotFound "nf")) := rfl
  rw [h0] at hm
  injection hm with h1
  injection h1 with h2
  rw [← h2] at hk
  exact absurd hk (by decide)

/-- C2 (amended): a phase-1 response with any status other than 307 makes
create_file fail with the error classified from that status and body (the
generic PyWebHdfsException when the status has no specific mapping; the
code has no distinct ProtocolViolation kind) and issue zero phase-2
requests: exactly one HTTP request occurs. -/
theorem phase1_non_redirect_classified_no_phase2
    (cfg : ClientCfg) (env : Env) (p d : String) (kw : List (String × PyVal))
    (a : Option String)
    (h0 : acquireAuth cfg.krb_instance 0 = Except.ok a)
    (hc : (unwrapFetch env.phase1).code ≠ 307) :
    (create_file cfg env p d kw).1 =
      Except.error (PyError.hdfs (raise_pywebhdfs_exception
        (unwrapFetch env.phase1).code (unwrapFetch env.phase1).body)) ∧
    httpCount (create_file cfg env p d kw).2 = 1 := by
  rcases a with _ | t <;>
  · constructor
    · simp [create_file, h0, hc]
    · simp [create_file, h0, hc, httpCount, acquireEvents, Event.isRequest]

/-- C2 witness: create_file on a 404 phase-1 response. -/
theorem phase1_non_redirect_classified_no_phase2_w :
    (create_file cfgNoKrb env404 "p" "d" []).1 =
      Except.error (PyError.hdfs (raise_pywebhdfs_exception
        (unwrapFetch env404.phase1).code (unwrapFetch env404.phase1).body)) ∧
    httpCount (create_file cfgNoKrb env404 "p" "d" []).2 = 1 :=
  phase1_non_redirect_classified_no_phase2 cfgNoKrb env404 "p" "d" [] none rfl
    (by decide)

/-- C3 counterexample: when the transport delivers the phase-2 404
response by raising an HTTPError (the transport behaviour tornado has for
every non-2xx status), create_file fails with the uncaught transport
error, not with the classified FileNotFound carrying the phase-2 body. -/
theorem phase2_exception_unclassified_cx :
    (create_file cfgNoKrb envPhase2Raised "p" "d" []).1 =
      Except.error (PyError.uncaughtHTTPError ⟨404, "nf", none⟩) ∧
    (create_file cfgNoKrb envPhase2Raised "p" "d" []).1 ≠
      Except.error (PyError.hdfs (raise_pywebhdfs_exception 404 "nf")) := by
  constructor
  · rfl
  · intro h
    rw [show (create_file cfgNoKrb envPhase2Raised "p" "d" []).1 =
        Except.error (PyError.uncaughtHTTPError ⟨404, "nf", none⟩) from rfl] at h
    simp at h

/-- C3 (amended): when the transport returns the phase-2 response
normally, a create_file call with any phase-2 status other than 201 and
an append_file call with any phase-2 status other than 200 — including a
200 on create and a 201 on append — fail with the status-classified
error carrying the phase-2 body; a phase-2 response carried inside a
raised HTTPError instead propagates as the uncaught transport error. -/
theorem phase2_bad_status_classified_when_returned
    (cfg : ClientCfg) (envC envA : Env) (p d : String)
    (kw : List (String × PyVal)) (a0 a1 : Option String)
    (locC locA : String) (r2C r2A : HttpResponse)
    (h0 : acquireAuth cfg.krb_instance 0 = Except.ok a0)
    (h1 : acquireAuth cfg.krb_instance 1 = Except.ok a1)
    (h307C : (unwrapFetch envC.phase1).code = 307)
    (hlocC : (unwrapFetch envC.phase1).location = some locC)
    (hp2C : envC.phase2 = FetchResult.ok r2C)
    (hcC : r2C.code ≠ 201)
    (h307A : (unwrapFetch envA.phase1).code = 307)
    (hlocA : (unwrapFetch envA.phase1).location = some locA)
    (hp2A : envA.phase2 = FetchResult.ok r2A)
    (hcA : r2A.code ≠ 200) :
    (create_file cfg envC p d kw).1 =
      Except.error (PyError.hdfs (raise_pywebhdfs_exception r2C.code r2C.body)) ∧
    (append_file cfg envA p d kw).1 =
      Except.error (PyError.hdfs (raise_pywebhdfs_exception r2A.code r2A.body)) := by
  constructor
  · simp [create_file, h0, h1, h307C, hlocC, hp2C, hcC]
  · simp [append_file, h0, h1, h307A, hlocA, hp2A, hcA]

/-- C3 witness: a phase-2 200 on create_file and a phase-2 201 on
append_file — the statuses the other operation accepts — classify as the
generic catch-all carrying the phase-2 body. -/
theorem phase2_bad_status_classified_when_returned_w :
    (create_file cfgNoKrb envCreate200 "p" "d" []).1 =
      Except.error (PyError.hdfs (raise_pywebhdfs_exception 200 "wrong")) ∧
    (append_file cfgNoKrb envAppend201 "p" "d" []).1 =
      Except.error (PyError.hdfs (raise_pywebhdfs_exception 201 "wrong")) :=
  phase2_bad_status_classified_when_returned cfgNoKrb envCreate200 envAppend201
    "p" "d" [] none none "http://dn:50075/x" "http://dn:50075/x"
    ⟨200, "wrong", none⟩ ⟨201, "wrong", none⟩ rfl rfl rfl rfl rfl
    (by decide) rfl rfl rfl (by decide)

/-- C7: an append_file call whose phase-1 response, returned normally or
carried in the raised HTTPError, has status 404 fails with FileNotFound
carrying the phase-1 body and issues zero phase-2 requests: exactly one
HTTP request occurs. -/
theorem append_phase1_404_filenotfound_no_phase2
    (cfg : ClientCfg) (env : Env) (p d : String) (kw : List (String × PyVal))
    (a : Option String)
    (h0 : acquireAuth cfg.krb_instance 0 = Except.ok a)
    (h404 : (unwrapFetch env.phase1).code = 404) :
    (append_file cfg env p d kw).1 =
      Except.error (PyError.hdfs (HdfsError.FileNotFound (unwrapFetch env.phase1).body)) ∧
    httpCount (append_file cfg env p d kw).2 = 1 := by
  have hc : (unwrapFetch env.phase1).code ≠ 307 := by rw [h404]; decide
  rcases a with _ | t <;>
  · constructor
    · simp [append_file, h0, hc, h404, raise_pywebhdfs_exception]
    · simp [append_file, h0, hc, httpCount, acquireEvents, Event.isRequest]

/-- C7 witness: append_file on a 404 phase-1 response. -/
theorem append_phase1_404_filenotfound_no_phase2_w :
    (append_file cfgNoKrb env404 "p" "d" []).1 =
      Except.error (PyError.hdfs (HdfsError.FileNotFound (unwrapFetch env404.phase1).body)) ∧
    httpCount (append_file cfgNoKrb env404 "p" "d" []).2 = 1 :=
  append_phase1_404_filenotfound_no_phase2 cfgNoKrb env404 "p" "d" [] none rfl
    (by decide)

/-- With a Kerberos instance configured, every HTTP request create_file
issues carries an Authorization header. -/
theorem create_file_requests_authed (cfg : ClientCfg) (inst : KrbInstance)
    (env : Env) (p d : String) (kw : List (String × PyVal))
    (hk : cfg.krb_instance = some inst) :
    allRequestsAuthed (create_file cfg env p d kw).2 = true := by
  cases h0 : acquireAuth cfg.krb_instance 0 with
  | error e => simp [create_file, h0, allRequestsAuthed]
  | ok a0 =>
  have h0' := h0
  rw [hk] at h0'
  obtain ⟨ha0, -⟩ := acquireAuth_ok_some inst 0 a0 h0'
  subst ha0
  by_cases h307 : (unwrapFetch env.phase1).code = 307
  · rcases hloc : (unwrapFetch env.phase1).location with _ | loc
    · simp [create_file, h0, h307, hloc, allRequestsAuthed, acquireEvents,
        authHeaders, Event.isRequest, Event.hasAuth]
    · cases h1 : acquireAuth cfg.krb_instance 1 with
      | error e1 =>
        simp [create_file, h0, h307, hloc, h1, allRequestsAuthed, acquireEvents,
          authHeaders, Event.isRequest, Event.hasAuth]
      | ok a1 =>
        have h1' := h1
        rw [hk] at h1'
        obtain ⟨ha1, -⟩ := acquireAuth_ok_some inst 1 a1 h1'
        subst ha1
        rcases hp2 : env.phase2 with r2 | r2 <;>
          by_cases hc : r2.code = 201 <;>
            simp [create_file, h0, h307, hloc, h1, hp2, hc, allRequestsAuthed,
              acquireEvents, authHeaders, Event.isRequest, Event.hasAuth]
  · simp [create_file, h0, h307, allRequestsAuthed, acquireEvents,
      authHeaders, Event.isRequest, Event.hasAuth]

/-- With a Kerberos instance configured, every HTTP request append_file
issues carries an Authorization header. -/
theorem append_file_requests_authed (cfg : ClientCfg) (inst : KrbInstance)
    (env : Env) (p d : String) (kw : List (String × PyVal))
    (hk : cfg.krb_instance = some inst) :
    allRequestsAuthed (append_file cfg env p d kw).2 = true := by
  cases h0 : acquireAuth cfg.krb_instance 0 with
  | error e => simp [append_file, h0, allRequestsAuthed]
  | ok a0 =>
  have h0' := h0
  rw [hk] at h0'
  obtain ⟨ha0, -⟩ := acquireAuth_ok_some inst 0 a0 h0'
  subst ha0
  by_cases h307 : (unwrapFetch env.phase1).code = 307
  · rcases hloc : (unwrapFetch env.phase1).location with _ | loc
    · simp [append_file, h0, h307, hloc, allRequestsAuthed, acquireEvents,
        authHeaders, Event.isRequest, Event.hasAuth]
    · cases h1 : acquireAuth cfg.krb_instance 1 with
      | error e1 =>
        simp [append_file, h0, h307, hloc, h1, allRequestsAuthed, acquireEvents,
          authHeaders, Event.isRequest, Event.hasAuth]
      | ok a1 =>
        have h1' := h1
        rw [hk] at h1'
        obtain ⟨ha1, -⟩ := acquireAuth_ok_some inst 1 a1 h1'
        subst ha1
        rcases hp2 : env.phase2 with r2 | r2 <;>
          by_cases hc : r2.code = 200 <;>
            simp [append_file, h0, h307, hloc, h1, hp2, hc, allRequestsAuthed,
              acquireEvents, authHeaders, Event.isRequest, Event.hasAuth]
  · simp [append_file, h0, h307, allRequestsAuthed, acquireEvents,
      authHeaders, Event.isRequest, Event.hasAuth]

/-- With a Kerberos instance configured, the single request a simpleOp
operation issues carries an Authorization header. -/
theorem simpleOp_requests_authed (cfg : ClientCfg) (inst : KrbInstance)
    (fr : FetchResult) (method operation p : String) (reqBody : Option String)
    (kw : List (String × PyVal)) (onOk : HttpResponse → PyRet)
    (hk : cfg.krb_instance = some inst) :
    allRequestsAuthed (simpleOp cfg fr method operation p reqBody kw onOk).2 = true := by
  cases h0 : acquireAuth cfg.krb_instance 0 with
  | error e => simp [simpleOp, h0, allRequestsAuthed]
  | ok a0 =>
  have h0' := h0
  rw [hk] at h0'
  obtain ⟨ha0, -⟩ := acquireAuth_ok_some inst 0 a0 h0'
  subst ha0
  rcases fr with r | r <;>
    by_cases hc : r.code = 200 <;>
      simp [simpleOp, h0, hc, allRequestsAuthed, acquireEvents, authHeaders,
        Event.isRequest, Event.hasAuth]

/-- With a Kerberos instance configured, the single request set_owner
issues carries an Authorization header. -/
theorem set_owner_requests_authed (cfg : ClientCfg) (inst : KrbInstance)
    (fr : FetchResult) (p o g : String) (kw : List (String × PyVal))
    (hk : cfg.krb_instance = some inst) :
    allRequestsAuthed (set_owner cfg fr p o g kw).2 = true := by
  cases h0 : acquireAuth cfg.krb_instance 0 with
  | error e => simp [set_owner, h0, allRequestsAuthed]
  | ok a0 =>
  have h0' := h0
  rw [hk] at h0'
  obtain ⟨ha0, -⟩ := acquireAuth_ok_some inst 0 a0 h0'
  subst ha0
  rcases fr with r | r <;>
    simp [set_owner, h0, allRequestsAuthed, acquireEvents, authHeaders,
      Event.isRequest, Event.hasAuth]

/-- C10 counterexample: the bundled manager discards the failure report of
refresh_kerberos_ccache — the acquisition returns the same Negotiate
header whether the refresh failed or succeeded — and a create_file call
whose acquisitions run that body with the refresh failing every time
still issues both HTTP requests and succeeds; nothing aborts. -/
theorem refresh_failure_not_aborting_cx :
    KCM_acquire_kerberos_ticket (false, "kinit: cannot contact KDC") "TOK" =
      "Negotiate TOK" ∧
    KCM_acquire_kerberos_ticket (false, "kinit: cannot contact KDC") "TOK" =
      KCM_acquire_kerberos_ticket (true, "") "TOK" ∧
    httpCount (create_file cfgRefreshFailing envCreateOK "p" "d" []).2 = 2 ∧
    (create_file cfgRefreshFailing envCreateOK "p" "d" []).1 =
      Except.ok (PyRet.pybool true) :=
  ⟨rfl, rfl, rfl, rfl⟩

/-- C10 (amended): when Kerberos is configured, a failure of ticket
acquisition — an exception raised at the acquisition call — aborts the
in-flight call before its HTTP request is issued: a first-acquisition
failure fails every one of the ten operations with no request issued at
all, and a second-acquisition failure of create_file or append_file fails
the call with only the phase-1 request issued, never the phase-2 one.
Every request any of the ten operations does issue carries an
Authorization header, with no fallback to an unauthenticated request.
A failed credential-cache refresh reported through the return value of
refresh_kerberos_ccache, however, is discarded by acquire_kerberos_ticket
and aborts nothing. -/
theorem ticket_failure_aborts_and_requests_authed
    (cfgF cfgM cfg2 : ClientCfg) (inst2 : KrbInstance) (er er2 : PyError)
    (aM : Option String) (env envM : Env) (fr : FetchResult)
    (p d o g dest locM : String) (rcsv : Bool) (kw : List (String × PyVal))
    (he : acquireAuth cfgF.krb_instance 0 = Except.error er)
    (hM0 : acquireAuth cfgM.krb_instance 0 = Except.ok aM)
    (h307M : (unwrapFetch envM.phase1).code = 307)
    (hlocM : (unwrapFetch envM.phase1).location = some locM)
    (hM1 : acquireAuth cfgM.krb_instance 1 = Except.error er2)
    (hk2 : cfg2.krb_instance = some inst2) :
    create_file cfgF env p d kw = (Except.error er, []) ∧
    append_file cfgF env p d kw = (Except.error er, []) ∧
    read_file cfgF fr p kw = (Except.error er, []) ∧
    make_dir cfgF fr p kw = (Except.error er, []) ∧
    rename_file_dir cfgF fr p dest kw = (Except.error er, []) ∧
    delete_file_dir cfgF fr p rcsv kw = (Except.error er, []) ∧
    get_file_dir_status cfgF fr p kw = (Except.error er, []) ∧
    list_dir cfgF fr p kw = (Except.error er, []) ∧
    get_acl_status cfgF fr p kw = (Except.error er, []) ∧
    set_owner cfgF fr p o g kw = (Except.error er, []) ∧
    (create_file cfgM envM p d kw).1 = Except.error er2 ∧
    httpCount (create_file cfgM envM p d kw).2 = 1 ∧
    (append_file cfgM envM p d kw).1 = Except.error er2 ∧
    httpCount (append_file cfgM envM p d kw).2 = 1 ∧
    allRequestsAuthed (create_file cfg2 env p d kw).2 = true ∧
    allRequestsAuthed (append_file cfg2 env p d kw).2 = true ∧
    allRequestsAuthed (read_file cfg2 fr p kw).2 = true ∧
    allRequestsAuthed (make_dir cfg2 fr p kw).2 = true ∧
    allRequestsAuthed (rename_file_dir cfg2 fr p dest kw).2 = true ∧
    allRequestsAuthed (delete_file_dir cfg2 fr p rcsv kw).2 = true ∧
    allRequestsAuthed (get_file_dir_status cfg2 fr p kw).2 = true ∧
    allRequestsAuthed (list_dir cfg2 fr p kw).2 = true ∧
    allRequestsAuthed (get_acl_status cfg2 fr p kw).2 = true ∧
    allRequestsAuthed (set_owner cfg2 fr p o g kw).2 = true := by
  refine ⟨?_, ?_, ?_, ?_, ?_, ?_, ?_, ?_, ?_, ?_, ?_, ?_, ?_, ?_,
    create_file_requests_authed cfg2 inst2 env p d kw hk2,
    append_file_requests_authed cfg2 inst2 env p d kw hk2,
    simpleOp_requests_authed cfg2 inst2 fr "GET" op_OPEN p none kw
      (fun r => PyRet.pybytes r.body) hk2,
    simpleOp_requests_authed cfg2 inst2 fr "PUT" op_MKDIRS p (some "") kw
      (fun _ => PyRet.pybool true) hk2,
    simpleOp_requests_authed cfg2 inst2 fr "PUT" op_RENAME p (some "")
      (("destination", PyVal.pstr dest) :: kw) (fun _ => PyRet.pybool true) hk2,
    simpleOp_requests_authed cfg2 inst2 fr "DELETE" op_DELETE p none
      (("recursive", PyVal.pbool rcsv) :: kw) (fun _ => PyRet.pybool true) hk2,
    simpleOp_requests_authed cfg2 inst2 fr "GET" op_GETFILESTATUS p none kw
      (fun r => PyRet.pyjson r.body) hk2,
    simpleOp_requests_authed cfg2 inst2 fr "GET" op_LISTSTATUS p none kw
      (fun r => PyRet.pyjson r.body) hk2,
    simpleOp_requests_authed cfg2 inst2 fr "GET" op_GETACLSTATUS p none kw
      (fun r => PyRet.pyjson r.body) hk2,
    set_owner_requests_authed cfg2 inst2 fr p o g kw hk2⟩
  · simp [create_file, he]
  · simp [append_file, he]
  · simp [read_file, simpleOp, he]
  · simp [make_dir, simpleOp, he]
  · simp [rename_file_dir, simpleOp, he]
  · simp [delete_file_dir, simpleOp, he]
  · simp [get_file_dir_status, simpleOp, he]
  · simp [list_dir, simpleOp, he]
  · simp [get_acl_status, simpleOp, he]
  · simp [set_owner, he]
  · simp [create_file, hM0, h307M, hlocM, hM1]
  · rcases aM with _ | t <;>
      simp [create_file, hM0, h307M, hlocM, hM1, httpCount, acquireEvents,
        Event.isRequest]
  · simp [append_file, hM0, h307M, hlocM, hM1]
  · rcases aM with _ | t <;>
      simp [append_file, hM0, h307M, hlocM, hM1, httpCount, acquireEvents,
        Event.isRequest]

/-- C10 witness: with an instance whose first acquisition raises, all ten
operations abort with no request; with an instance whose second
acquisition raises, create_file and append_file abort after the phase-1
request only; with a working instance, every issued request of every
operation is authenticated. -/
theorem ticket_failure_aborts_and_requests_authed_w :
    create_file cfgFail envCreateOK "p" "d" [] =
      (Except.error (PyError.ticketAcquisitionError "no TGT available"), []) ∧
    append_file cfgFail envCreateOK "p" "d" [] =
      (Except.error (PyError.ticketAcquisitionError "no TGT available"), []) ∧
    read_file cfgFail (FetchResult.ok ⟨200, "", none⟩) "p" [] =
      (Except.error (PyError.ticketAcquisitionError "no TGT available"), []) ∧
    make_dir cfgFail (FetchResult.ok ⟨200, "", none⟩) "p" [] =
      (Except.error (PyError.ticketAcquisitionError "no TGT available"), []) ∧
    rename_file_dir cfgFail (FetchResult.ok ⟨200, "", none⟩) "p" "q" [] =
      (Except.error (PyError.ticketAcquisitionError "no TGT available"), []) ∧
    delete_file_dir cfgFail (FetchResult.ok ⟨200, "", none⟩) "p" true [] =
      (Except.error (PyError.ticketAcquisitionError "no TGT available"), []) ∧
    get_file_dir_status cfgFail (FetchResult.ok ⟨200, "", none⟩) "p" [] =
      (Except.error (PyError.ticketAcquisitionError "no TGT available"), []) ∧
    list_dir cfgFail (FetchResult.ok ⟨200, "", none⟩) "p" [] =
      (Except.error (PyError.ticketAcquisitionError "no TGT available"), []) ∧
    get_acl_status cfgFail (FetchResult.ok ⟨200, "", none⟩) "p" [] =
      (Except.error (PyError.ticketAcquisitionError "no TGT available"), []) ∧
    set_owner cfgFail (FetchResult.ok ⟨200, "", none⟩) "p" "o" "g" [] =
      (Except.error (PyError.ticketAcquisitionError "no TGT available"), []) ∧
    (create_file cfgSecondFail envCreateOK "p" "d" []).1 =
      Except.error (PyError.ticketAcquisitionError "replay suspected") ∧
    httpCount (create_file cfgSecondFail envCreateOK "p" "d" []).2 = 1 ∧
    (append_file cfgSecondFail envCreateOK "p" "d" []).1 =
      Except.error (PyError.ticketAcquisitionError "replay suspected") ∧
    httpCount (append_file cfgSecondFail envCreateOK "p" "d" []).2 = 1 ∧
    allRequestsAuthed (create_file cfgW envCreateOK "p" "d" []).2 = true ∧
    allRequestsAuthed (append_file cfgW envCreateOK "p" "d" []).2 = true ∧
    allRequestsAuthed (read_file cfgW (FetchResult.ok ⟨200, "", none⟩) "p" []).2 = true ∧
    allRequestsAuthed (make_dir cfgW (FetchResult.ok ⟨200, "", none⟩) "p" []).2 = true ∧
    allRequestsAuthed (rename_file_dir cfgW (FetchResult.ok ⟨200, "", none⟩) "p" "q" []).2 = true ∧
    allRequestsAuthed (delete_file_dir cfgW (FetchResult.ok ⟨200, "", none⟩) "p" true []).2 = true ∧
    allRequestsAuthed (get_file_dir_status cfgW (FetchResult.ok ⟨200, "", none⟩) "p" []).2 = true ∧
    allRequestsAuthed (list_dir cfgW (FetchResult.ok ⟨200, "", none⟩) "p" []).2 = true ∧
    allRequestsAuthed (get_acl_status cfgW (FetchResult.ok ⟨200, "", none⟩) "p" []).2 = true ∧
    allRequestsAuthed (set_owner cfgW (FetchResult.ok ⟨200, "", none⟩) "p" "o" "g" []).2 = true :=
  ticket_failure_aborts_and_requests_authed cfgFail cfgSecondFail cfgW instW
    (PyError.ticketAcquisitionError "no TGT available")
    (PyError.ticketAcquisitionError "replay suspected") (some "T0")
    envCreateOK envCreateOK (FetchResult.ok ⟨200, "", none⟩)
    "p" "d" "o" "g" "q" "http://dn:50075/webhdfs/v1/p?op=CREATE" true []
    rfl rfl rfl rfl rfl rfl

/-- A create_file call that returns successfully — with or without a
Kerberos instance — produced the trace: first prologue, phase-1 PUT with
the first prologue headers, second prologue, phase-2 PUT to the redirect
location with the second prologue headers; and both acquisitions
succeeded when an instance is configured. -/
theorem create_file_ok_trace (cfg : ClientCfg) (env : Env)
    (p d : String) (kw : List (String × PyVal)) (ret : PyRet)
    (hs : (create_file cfg env p d kw).1 = Except.ok ret) :
    acquiresOK cfg.krb_instance 0 ∧
    acquiresOK cfg.krb_instance 1 ∧
    (create_file cfg env p d kw).2 =
      prologueEvents cfg.krb_instance 0 ++
      [Event.httpRequest "PUT" (create_uri cfg.base_uri cfg.user_name p op_CREATE kw)
        (prologueHeaders cfg.krb_instance 0) (some "")] ++
      prologueEvents cfg.krb_instance 1 ++
      [Event.httpRequest "PUT" ((unwrapFetch env.phase1).location.getD "")
        (prologueHeaders cfg.krb_instance 1 ++
          [("Content-Type", "application/octet-stream")]) (some d)] := by
  cases h0 : acquireAuth cfg.krb_instance 0 with
  | error e => simp [create_file, h0] at hs
  | ok a0 =>
  obtain ⟨he0, hh0, hok0⟩ := acquireAuth_ok_prologue cfg.krb_instance 0 a0 h0
  by_cases h307 : (unwrapFetch env.phase1).code = 307
  · rcases hloc : (unwrapFetch env.phase1).location with _ | loc
    · simp [create_file, h0, h307, hloc] at hs
    · cases h1 : acquireAuth cfg.krb_instance 1 with
      | error e1 => simp [create_file, h0, h307, hloc, h1] at hs
      | ok a1 =>
        obtain ⟨he1, hh1, hok1⟩ := acquireAuth_ok_prologue cfg.krb_instance 1 a1 h1
        cases hp2 : env.phase2 with
        | raisedHTTPError r2 => simp [create_file, h0, h307, hloc, h1, hp2] at hs
        | ok r2 =>
          by_cases hc : r2.code = 201
          · refine ⟨hok0, hok1, ?_⟩
            rw [← he0, ← hh0, ← he1, ← hh1]
            simp [create_file, h0, h307, hloc, h1, hp2, hc, List.append_assoc]
          · simp [create_file, h0, h307, hloc, h1, hp2, hc] at hs
  · simp [create_file, h0, h307] at hs

/-- An append_file call that returns successfully — with or without a
Kerberos instance — produced the trace: first prologue, phase-1 POST with
the first prologue headers, second prologue, phase-2 POST to the redirect
location with the second prologue headers; and both acquisitions
succeeded when an instance is configured. -/
theorem append_file_ok_trace (cfg : ClientCfg) (env : Env)
    (p d : String) (kw : List (String × PyVal)) (ret : PyRet)
    (hs : (append_file cfg env p d kw).1 = Except.ok ret) :
    acquiresOK cfg.krb_instance 0 ∧
    acquiresOK cfg.krb_instance 1 ∧
    (append_file cfg env p d kw).2 =
      prologueEvents cfg.krb_instance 0 ++
      [Event.httpRequest "POST" (create_uri cfg.base_uri cfg.user_name p op_APPEND kw)
        (prologueHeaders cfg.krb_instance 0) (some "")] ++
      prologueEvents cfg.krb_instance 1 ++
      [Event.httpRequest "POST" ((unwrapFetch env.phase1).location.getD "")
        (prologueHeaders cfg.krb_instance 1 ++
          [("Content-Type", "application/octet-stream")]) (some d)] := by
  cases h0 : acquireAuth cfg.krb_instance 0 with
  | error e => simp [append_file, h0] at hs
  | ok a0 =>
  obtain ⟨he0, hh0, hok0⟩ := acquireAuth_ok_prologue cfg.krb_instance 0 a0 h0
  by_cases h307 : (unwrapFetch env.phase1).code = 307
  · rcases hloc : (unwrapFetch env.phase1).location with _ | loc
    · simp [append_file, h0, h307, hloc] at hs
    · cases h1 : acquireAuth cfg.krb_instance 1 with
      | error e1 => simp [append_file, h0, h307, hloc, h1] at hs
      | ok a1 =>
        obtain ⟨he1, hh1, hok1⟩ := acquireAuth_ok_prologue cfg.krb_instance 1 a1 h1
        cases hp2 : env.phase2 with
        | raisedHTTPError r2 => simp [append_file, h0, h307, hloc, h1, hp2] at hs
        | ok r2 =>
          by_cases hc : r2.code = 200
          · refine ⟨hok0, hok1, ?_⟩
            rw [← he0, ← hh0, ← he1, ← hh1]
            simp [append_file, h0, h307, hloc, h1, hp2, hc, List.append_assoc]
          · simp [append_file, h0, h307, hloc, h1, hp2, hc] at hs
  · simp [append_file, h0, h307] at hs

/-- C1: every create_file and every append_file call that returns
successfully — Kerberos configured or not — issued exactly two HTTP
requests, the first to the namenode URI and the second to the redirect
location; and when a Kerberos instance is configured the trace shows two
independent acquisitions (calls 0 and 1 of the instance, both succeeded),
one immediately before each request, the first request carrying the first
token and the second request the second token, so no token is reused
across the two requests. -/
theorem create_append_success_exactly_two_requests
    (cfg : ClientCfg) (envC envA : Env)
    (p d : String) (kw : List (String × PyVal)) (retC retA : PyRet)
    (hsC : (create_file cfg envC p d kw).1 = Except.ok retC)
    (hsA : (append_file cfg envA p d kw).1 = Except.ok retA) :
    acquiresOK cfg.krb_instance 0 ∧
    acquiresOK cfg.krb_instance 1 ∧
    (create_file cfg envC p d kw).2 =
      prologueEvents cfg.krb_instance 0 ++
      [Event.httpRequest "PUT" (create_uri cfg.base_uri cfg.user_name p op_CREATE kw)
        (prologueHeaders cfg.krb_instance 0) (some "")] ++
      prologueEvents cfg.krb_instance 1 ++
      [Event.httpRequest "PUT" ((unwrapFetch envC.phase1).location.getD "")
        (prologueHeaders cfg.krb_instance 1 ++
          [("Content-Type", "application/octet-stream")]) (some d)] ∧
    httpCount (create_file cfg envC p d kw).2 = 2 ∧
    (append_file cfg envA p d kw).2 =
      prologueEvents cfg.krb_instance 0 ++
      [Event.httpRequest "POST" (create_uri cfg.base_uri cfg.user_name p op_APPEND kw)
        (prologueHeaders cfg.krb_instance 0) (some "")] ++
      prologueEvents cfg.krb_instance 1 ++
      [Event.httpRequest "POST" ((unwrapFetch envA.phase1).location.getD "")
        (prologueHeaders cfg.krb_instance 1 ++
          [("Content-Type", "application/octet-stream")]) (some d)] ∧
    httpCount (append_file cfg envA p d kw).2 = 2 := by
  obtain ⟨hq0, hq1, htrC⟩ := create_file_ok_trace cfg envC p d kw retC hsC
  obtain ⟨-, -, htrA⟩ := append_file_ok_trace cfg envA p d kw retA hsA
  refine ⟨hq0, hq1, htrC, ?_, htrA, ?_⟩
  · rw [htrC]
    cases cfg.krb_instance <;>
      simp [prologueEvents, httpCount, Event.isRequest, List.filter_append]
  · rw [htrA]
    cases cfg.krb_instance <;>
      simp [prologueEvents, httpCount, Event.isRequest, List.filter_append]

/-- C1 witness: a Kerberos-enabled create_file and append_file and a
non-Kerberos pair run to success against concrete transports, with the
stated traces and exactly two requests each. -/
theorem create_append_success_exactly_two_requests_w :
    (acquiresOK cfgW.krb_instance 0 ∧
     acquiresOK cfgW.krb_instance 1 ∧
     (create_file cfgW envCreateOK "p" "d" []).2 =
       prologueEvents cfgW.krb_instance 0 ++
       [Event.httpRequest "PUT" (create_uri cfgW.base_uri cfgW.user_name "p" op_CREATE [])
         (prologueHeaders cfgW.krb_instance 0) (some "")] ++
       prologueEvents cfgW.krb_instance 1 ++
       [Event.httpRequest "PUT" ((unwrapFetch envCreateOK.phase1).location.getD "")
         (prologueHeaders cfgW.krb_instance 1 ++
           [("Content-Type", "application/octet-stream")]) (some "d")] ∧
     httpCount (create_file cfgW envCreateOK "p" "d" []).2 = 2 ∧
     (append_file cfgW envAppendOK "p" "d" []).2 =
       prologueEvents cfgW.krb_instance 0 ++
       [Event.httpRequest "POST" (create_uri cfgW.base_uri cfgW.user_name "p" op_APPEND [])
         (prologueHeaders cfgW.krb_instance 0) (some "")] ++
       prologueEvents cfgW.krb_instance 1 ++
       [Event.httpRequest "POST" ((unwrapFetch envAppendOK.phase1).location.getD "")
         (prologueHeaders cfgW.krb_instance 1 ++
           [("Content-Type", "application/octet-stream")]) (some "d")] ∧
     httpCount (append_file cfgW envAppendOK "p" "d" []).2 = 2) ∧
    (httpCount (create_file cfgNoKrb envCreateOK "p" "d" []).2 = 2 ∧
     httpCount (append_file cfgNoKrb envAppendOK "p" "d" []).2 = 2) :=
  ⟨create_append_success_exactly_two_requests cfgW envCreateOK envAppendOK
      "p" "d" [] (PyRet.pybool true) (PyRet.pybool true) rfl rfl,
   (create_append_success_exactly_two_requests cfgNoKrb envCreateOK envAppendOK
      "p" "d" [] (PyRet.pybool true) (PyRet.pybool true) rfl rfl).2.2.2.1,
   (create_append_success_exactly_two_requests cfgNoKrb envCreateOK envAppendOK
      "p" "d" [] (PyRet.pybool true) (PyRet.pybool true) rfl rfl).2.2.2.2.2⟩

end Pywebhdfs
